import Mathlib

/-!
Verification of the client-side ScrapePilot dashboard data-orchestration
controller (`DashboardPage` in the dashboard page component) and its resource
fetcher (`apiFetch` in `frontend/lib/utils.ts`), as a shallow embedding.

JavaScript `number` values are modelled as `Option ℚ` (`none` encodes `NaN`;
the infinities are not reachable by the code paths under study).  Promises are
modelled by passing each operation the settled results of the fetches it
awaits (`Except String α`: `.error` is a rejection carrying the message of
the thrown `Error`), together with, where the order in which concurrent
fetches settle matters, an explicit resolution order.
-/

namespace ScrapePilot

/-- JavaScript `number`: `none` is `NaN`, `some q` a finite value. -/
abbrev JsNum := Option ℚ

instance {ε α : Type} [DecidableEq ε] [DecidableEq α] : DecidableEq (Except ε α) :=
  fun a b =>
    match a, b with
    | .ok x, .ok y =>
      if h : x = y then isTrue (by rw [h])
      else isFalse (by intro hc; cases hc; exact h rfl)
    | .error x, .error y =>
      if h : x = y then isTrue (by rw [h])
      else isFalse (by intro hc; cases hc; exact h rfl)
    | .ok _, .error _ => isFalse (by intro hc; cases hc)
    | .error _, .ok _ => isFalse (by intro hc; cases hc)

/-! ## Data model (from `frontend/lib/types.ts`) -/

/-- Record of `StatCard` in `lib/types.ts`. -/
structure StatCard where
  id : String
  label : String
  value : String
  trend_value : JsNum
  trend_direction : String
  trend_label : String
deriving DecidableEq

/-- Record of `SummaryResponse` in `lib/types.ts`. -/
structure SummaryResponse where
  cards : List StatCard
deriving DecidableEq

/-- Record of `TrendingResponse` in `lib/types.ts`; each point is a
`Record<string, string | number>` modelled as an association list. -/
structure TrendingResponse where
  topics : List String
  points : List (List (String × (String ⊕ JsNum)))
deriving DecidableEq

/-- Record of `DomainPoint` in `lib/types.ts`. -/
structure DomainPoint where
  domain : String
  count : Int
deriving DecidableEq

/-- Record of `ScrapedItem` in `lib/types.ts`. -/
structure ScrapedItem where
  id : Int
  run_id : Int
  title : String
  url : String
  points : Int
  comments : Int
  source_domain : String
  timestamp : String
deriving DecidableEq

/-- Record of `ItemListResponse` in `lib/types.ts`. -/
structure ItemListResponse where
  total : Int
  items : List ScrapedItem
deriving DecidableEq

/-- Record of `ScrapeRun` in `lib/types.ts`. -/
structure ScrapeRun where
  id : Int
  started_at : String
  completed_at : Option String
  status : String
  item_count : Int
  error_message : Option String
deriving DecidableEq

/-- Record of `HistoryResponse` in `lib/types.ts`. -/
structure HistoryResponse where
  success_rate : JsNum
  runs : List ScrapeRun
deriving DecidableEq

/-- Record of `ScrapeStatus` in `lib/types.ts`. -/
structure ScrapeStatus where
  is_running : Bool
  last_run_status : Option String
  last_run_completed_at : Option String
  last_error : Option String
  next_run_at : Option String
deriving DecidableEq

/-- Record of `Schedule` in `lib/types.ts`. -/
structure Schedule where
  interval_minutes : JsNum
  next_run_at : Option String
deriving DecidableEq

/-! ## Platform primitives used by the controller -/

/-- Model of JavaScript `String.prototype.trim` (ASCII whitespace stripping;
`String.trim` of the Lean library is avoided because it does not reduce in
the kernel). -/
def jsTrim (s : String) : String :=
  String.mk (((s.data.dropWhile Char.isWhitespace).reverse.dropWhile Char.isWhitespace).reverse)

/-- Digit value of a decimal digit character. -/
def digitVal (c : Char) : Nat := c.toNat - 48

/-- Natural number denoted by a list of decimal digits (most significant first). -/
def parseDigits (l : List Char) : Nat := l.foldl (fun a c => a * 10 + digitVal c) 0

/-- Model of the JavaScript `Number()` coercion on strings, restricted to the
decimal forms (optional sign, digits, optional fraction); hexadecimal,
exponent and `Infinity` forms are not modelled.  `none` is `NaN`. -/
def jsNumber (s : String) : JsNum :=
  let t := (jsTrim s).data
  if t = [] then some 0
  else
    let signed : Bool × List Char :=
      match t with
      | '-' :: r => (true, r)
      | '+' :: r => (false, r)
      | r => (false, r)
    let neg := signed.1
    let ds := signed.2
    let intPart := ds.takeWhile (fun c => c != '.')
    let rest := ds.dropWhile (fun c => c != '.')
    match rest with
    | [] =>
      if ds ≠ [] ∧ ds.all Char.isDigit then
        some (mkRat (if neg then -(parseDigits ds : Int) else parseDigits ds) 1)
      else none
    | _ :: fracPart =>
      if intPart.all Char.isDigit ∧ fracPart.all Char.isDigit ∧
          (fracPart.all (fun c => c != '.')) ∧ (intPart ≠ [] ∨ fracPart ≠ []) then
        let n : Nat := parseDigits intPart * 10 ^ fracPart.length + parseDigits fracPart
        some (mkRat (if neg then -(n : Int) else n) (10 ^ fracPart.length))
      else none

/-- Lexicographic comparison of character lists; the model of the comparator
`(a, b) => a.localeCompare(b)` used to sort domain names (on the lowercase
ASCII domain strings the code sorts, locale order is lexicographic order). -/
def charListLe : List Char → List Char → Bool
  | [], _ => true
  | _ :: _, [] => false
  | a :: as, b :: bs => if a = b then charListLe as bs else decide (a < b)

/-- Lexicographic order on strings induced by `charListLe`. -/
def domLe (a b : String) : Prop := charListLe a.data b.data = true

instance : DecidableRel domLe := fun _ _ => inferInstanceAs (Decidable (_ = true))

/-! ## Resource fetcher (`apiFetch` in `frontend/lib/utils.ts`) -/

/-- An HTTP response as the fetcher observes it: status code and body text. -/
structure HttpResponse where
  status : Nat
  body : String
deriving DecidableEq

/-- Model of `Response.ok`: status in the inclusive range 200–299. -/
def respOk (r : HttpResponse) : Bool := decide (200 ≤ r.status) && decide (r.status < 300)

/-- Shallow embedding of `apiFetch` from `frontend/lib/utils.ts`, given the
settled response.  `parse` models `response.json()` (a platform primitive);
`.ok none` is the `undefined` result returned for a 204 status.  Mirrors the
source: non-ok status throws the body text when non-empty, otherwise
the generic message; 204 returns `undefined`; otherwise the parsed body, a
parse failure propagating as the thrown error. -/
def apiFetch (parse : String → Except String α) (r : HttpResponse) :
    Except String (Option α) :=
  if respOk r = false then
    .error (if r.body = "" then "Request failed: " ++ toString r.status else r.body)
  else if r.status = 204 then
    .ok none
  else
    match parse r.body with
    | .ok v => .ok (some v)
    | .error e => .error e

/-- One call to `apiFetch` against a stream of network responses: the call
consumes exactly one response (the first component counts the requests it
issues); an empty stream models a transport failure, which rejects without
consuming application-level responses. -/
def apiFetchTrace (parse : String → Except String α) (net : List HttpResponse) :
    Nat × Except String (Option α) :=
  match net with
  | [] => (1, .error "network error")
  | r :: _ => (1, apiFetch parse r)

/-! ## Controller state (the `useState` hooks of `DashboardPage`) -/

/-- Sort column union type of the dashboard page. -/
inductive SortColumn where
  | timestamp
  | points
  | comments
  | title
deriving DecidableEq

/-- Query-string key of a sort column. -/
def SortColumn.key : SortColumn → String
  | .timestamp => "timestamp"
  | .points => "points"
  | .comments => "comments"
  | .title => "title"

/-- Sort order union type of the dashboard page. -/
inductive SortOrder where
  | asc
  | desc
deriving DecidableEq

/-- Query-string key of a sort order. -/
def SortOrder.key : SortOrder → String
  | .asc => "asc"
  | .desc => "desc"

/-- The flip applied by the `setSortOrder` updater: descending and ascending swap. -/
def flipOrder : SortOrder → SortOrder
  | .desc => .asc
  | .asc => .desc

/-- The state owned by `DashboardPage`: one field per `useState` hook, in
source order. -/
structure DashState where
  summary : Option SummaryResponse
  trending : Option TrendingResponse
  domains : List DomainPoint
  status : Option ScrapeStatus
  schedule : Option Schedule
  history : Option HistoryResponse
  items : Option ItemListResponse
  bootLoading : Bool
  tableLoading : Bool
  isRunning : Bool
  scheduleSaving : Bool
  error : Option String
  searchInput : String
  search : String
  sourceFilter : String
  sortBy : SortColumn
  sortOrder : SortOrder
  intervalMinutes : JsNum
deriving DecidableEq

/-- Initial state: the `useState` initial values of `DashboardPage`. -/
def initState : DashState where
  summary := none
  trending := none
  domains := []
  status := none
  schedule := none
  history := none
  items := none
  bootLoading := true
  tableLoading := true
  isRunning := false
  scheduleSaving := false
  error := none
  searchInput := ""
  search := ""
  sourceFilter := "all"
  sortBy := .timestamp
  sortOrder := .desc
  intervalMinutes := some 15

/-! ## Bulk refresh (`loadCoreData`) -/

/-- The six settled fetch results `loadCoreData` awaits through `Promise.all`,
in the array order of the source. -/
structure CoreResults where
  summaryRes : Except String SummaryResponse
  trendsRes : Except String TrendingResponse
  domainsRes : Except String (List DomainPoint)
  statusRes : Except String ScrapeStatus
  historyRes : Except String HistoryResponse
  scheduleRes : Except String Schedule

/-- Rejection message of a settled result, if it is a rejection. -/
def exceptError : Except String α → Option String
  | .error e => some e
  | .ok _ => none

/-- Rejection message of the `i`-th fetch of a bulk refresh (array order of
the source: summary, trending, domains, status, history, schedule). -/
def slotError (res : CoreResults) : Nat → Option String
  | 0 => exceptError res.summaryRes
  | 1 => exceptError res.trendsRes
  | 2 => exceptError res.domainsRes
  | 3 => exceptError res.statusRes
  | 4 => exceptError res.historyRes
  | 5 => exceptError res.scheduleRes
  | _ => none

/-- Rejection messages of a bulk refresh in the order the fetches settle
(`order` lists the slot indices in settlement order); `Promise.all` rejects
with the head of this list. -/
def coreErrors (order : List Nat) (res : CoreResults) : List String :=
  order.filterMap (slotError res)

/-- All six fetches of a bulk refresh fulfilled. -/
def allOk (res : CoreResults) : Bool :=
  res.summaryRes.isOk && res.trendsRes.isOk && res.domainsRes.isOk &&
  res.statusRes.isOk && res.historyRes.isOk && res.scheduleRes.isOk

/-- Shallow embedding of `loadCoreData`: awaits the `Promise.all` of the six
fetches (which rejects with the chronologically first rejection, `order`
being the settlement order of the slots and assumed to enumerate them all),
then either replaces the six pieces of state, seeds the interval input from
the fetched schedule and clears the error, or, in the `catch` branch, stores
the first rejection message; the `finally` branch clears `bootLoading`. -/
def loadCoreData (s : DashState) (order : List Nat) (res : CoreResults) : DashState :=
  match (coreErrors order res).head? with
  | some e => { s with error := some e, bootLoading := false }
  | none =>
    match res.summaryRes, res.trendsRes, res.domainsRes,
          res.statusRes, res.historyRes, res.scheduleRes with
    | .ok su, .ok tr, .ok dm, .ok st, .ok hi, .ok sc =>
      { s with
        summary := some su
        trending := some tr
        domains := dm
        status := some st
        history := some hi
        schedule := some sc
        intervalMinutes := sc.interval_minutes
        error := none
        bootLoading := false }
    | _, _, _, _, _, _ =>
      -- unreachable when `order` enumerates all six slots
      { s with bootLoading := false }

/-! ## Item query (`loadItems`) -/

/-- The `URLSearchParams` built by `loadItems` from the current query state:
sort column, sort order, fixed limit 40 and offset 0, then `search` only when
the trimmed debounced term is non-empty and `source` only when the filter is
not the sentinel `"all"`. -/
def itemsQuery (s : DashState) : List (String × String) :=
  [("sort_by", s.sortBy.key), ("sort_order", s.sortOrder.key),
   ("limit", "40"), ("offset", "0")]
  ++ (if jsTrim s.search = "" then [] else [("search", jsTrim s.search)])
  ++ (if s.sourceFilter = "all" then [] else [("source", s.sourceFilter)])

/-- Synchronous prefix of `loadItems`: sets `tableLoading` and issues one
fetch whose query is built from the current state. -/
def loadItemsStart (s : DashState) : DashState × List (String × String) :=
  ({ s with tableLoading := true }, itemsQuery s)

/-- Resumption of `loadItems` when its fetch settles: on fulfilment replaces
`items` and clears the error, on rejection stores the message and leaves
`items` untouched; the `finally` branch clears `tableLoading` either way. -/
def loadItemsFinish (s : DashState) (res : Except String ItemListResponse) : DashState :=
  match res with
  | .ok page => { s with items := some page, error := none, tableLoading := false }
  | .error e => { s with error := some e, tableLoading := false }

/-! ## Background status polling -/

/-- Polling interval of the status ticker, in milliseconds. -/
def pollIntervalMs : Nat := 5000

/-- One tick of the status polling interval: on fulfilment replaces `status`
only; a rejection is swallowed (`catch` with an empty body), keeping the
previous state entirely. -/
def pollStep (s : DashState) (res : Except String ScrapeStatus) : DashState :=
  match res with
  | .ok st => { s with status := some st }
  | .error _ => s

/-! ## Manual run trigger (`runScrape`) -/

/-- Shallow embedding of `runScrape`: sets `isRunning`, issues the trigger
`POST`; on its rejection stores the message, on fulfilment awaits
`loadCoreData` and `loadItems` concurrently (neither rethrows, each catches
internally; `coreLast` tells which of the two resumptions settles last); the
`finally` branch clears `isRunning`. -/
def runScrape (s : DashState) (post : Except String Unit) (order : List Nat)
    (core : CoreResults) (itemsRes : Except String ItemListResponse)
    (coreLast : Bool) : DashState :=
  let s1 := { s with isRunning := true }
  match post with
  | .error e => { s1 with error := some e, isRunning := false }
  | .ok _ =>
    let s2 := { s1 with tableLoading := true }
    let s3 :=
      if coreLast then loadCoreData (loadItemsFinish s2 itemsRes) order core
      else loadItemsFinish (loadCoreData s2 order core) itemsRes
    { s3 with isRunning := false }

/-- Condition of the `disabled` attribute of the run button:
`isRunning || status?.is_running` (optional chaining on a `null` status is
falsy). -/
def statusIsRunning (s : DashState) : Bool :=
  match s.status with
  | some st => st.is_running
  | none => false

/-- The run button is disabled exactly when a run is already being triggered
or the reported status says one is in progress. -/
def runScrapeDisabled (s : DashState) : Bool := s.isRunning || statusIsRunning s

/-- A user click on the run button: a disabled button dispatches no click
event, so `runScrape` is not invoked and no request is issued (the returned
flag records whether the trigger request was issued). -/
def clickRunScrape (s : DashState) (post : Except String Unit) (order : List Nat)
    (core : CoreResults) (itemsRes : Except String ItemListResponse)
    (coreLast : Bool) : DashState × Bool :=
  if runScrapeDisabled s then (s, false)
  else (runScrape s post order core itemsRes coreLast, true)

/-! ## Schedule update (`updateSchedule`) -/

/-- Shallow embedding of `updateSchedule`: sets `scheduleSaving`, `POST`s the
current `intervalMinutes` (the second component is the `interval_minutes`
value sent, unclamped); on fulfilment replaces `schedule` with the server response
and awaits a bulk refresh, on rejection stores the message; the
`finally` branch clears `scheduleSaving`. -/
def updateSchedule (s : DashState) (post : Except String Schedule)
    (order : List Nat) (core : CoreResults) : DashState × JsNum :=
  let s1 := { s with scheduleSaving := true }
  let body := s.intervalMinutes
  match post with
  | .error e => ({ s1 with error := some e, scheduleSaving := false }, body)
  | .ok upd =>
    ({ (loadCoreData { s1 with schedule := some upd } order core) with
        scheduleSaving := false }, body)

/-- Change handler of the interval input:
`setIntervalMinutes(Number(event.target.value || 15))` — the empty string is
the only falsy raw value, in which case the literal `15` is coerced. -/
def onIntervalChange (s : DashState) (raw : String) : DashState :=
  { s with intervalMinutes := if raw = "" then some 15 else jsNumber raw }

/-! ## Sort toggle and domain projection -/

/-- Shallow embedding of `handleSort`: selecting the active column flips the
order, selecting another column activates it with descending order. -/
def handleSort (s : DashState) (c : SortColumn) : DashState :=
  if s.sortBy = c then { s with sortOrder := flipOrder s.sortOrder }
  else { s with sortBy := c, sortOrder := .desc }

/-- The `source_domain` fields contributed by the current item page
(`items?.items` contributes nothing while `items` is `null`). -/
def itemDomains : Option ItemListResponse → List String
  | some page => page.items.map ScrapedItem.source_domain
  | none => []

/-- Shallow embedding of the `uniqueDomains` memo: the deduplicated union of
the domain names of the domain counts and the `source_domain` of every item
of the current page, sorted by the locale comparator (modelled by the
lexicographic `domLe`; a `Set` keeps one copy per name, so any comparison
sort of the deduplicated union computes the same list). -/
def uniqueDomains (domains : List DomainPoint) (items : Option ItemListResponse) :
    List String :=
  List.insertionSort domLe ((domains.map DomainPoint.domain ++ itemDomains items).dedup)

/-! ## Item-query event machine

The React lifecycle around `loadItems`: user changes to the query state rerun
the `loadItems` effect, which issues a fetch whose query is captured at issue
time; the resumption of each fetch applies `loadItemsFinish` unconditionally —
the source compares no sequence number and no query parameters at resolution
time.  The machine records every issued query; a `resolve` event settles one
in-flight fetch (any settlement order is a valid schedule). -/

/-- Controller state plus the queries of the item fetches issued so far. -/
structure ItemMachine where
  st : DashState
  issued : List (List (String × String))
deriving DecidableEq

/-- Run of the `loadItems` effect: the synchronous prefix of `loadItems`. -/
def issueLoad (m : ItemMachine) : ItemMachine :=
  { st := (loadItemsStart m.st).1, issued := m.issued ++ [(loadItemsStart m.st).2] }

/-- Events of the item-query machine: the three user-driven query-state
changes that rerun the `loadItems` effect, and the settlement of an
in-flight item fetch. -/
inductive ItemEv where
  | userSort (c : SortColumn)
  | userFilter (v : String)
  | userSearchCommit (q : String)
  | resolve (i : Nat) (res : Except String ItemListResponse)

/-- One step of the item-query machine.  A settlement applies
`loadItemsFinish` to the current state, exactly as the resumption in the source
does, with no staleness comparison. -/
def stepItem (m : ItemMachine) : ItemEv → ItemMachine
  | .userSort c => issueLoad { m with st := handleSort m.st c }
  | .userFilter v => issueLoad { m with st := { m.st with sourceFilter := v } }
  | .userSearchCommit q => issueLoad { m with st := { m.st with search := q } }
  | .resolve i res =>
    if i < m.issued.length then { m with st := loadItemsFinish m.st res } else m

/-- Machine at mount: the `loadItems` effect runs once against the initial
state. -/
def initItemMachine : ItemMachine := issueLoad { st := initState, issued := [] }

/-- Run the machine over an event sequence from the mounted state. -/
def runItems (evs : List ItemEv) : ItemMachine := evs.foldl stepItem initItemMachine

/-- Fold of one settled item fetch into the `items` slot: a fulfilment
replaces the page, a rejection keeps the accumulator. -/
def applyRes (acc : Option ItemListResponse) (r : Except String ItemListResponse) :
    Option ItemListResponse :=
  match r with
  | .ok p => some p
  | .error _ => acc

/-- The settlements of an event sequence that hit an issued fetch, in
settlement order. -/
def validResolves (m : ItemMachine) : List ItemEv → List (Except String ItemListResponse)
  | [] => []
  | e :: es =>
    (match e with
     | .resolve i res => if i < m.issued.length then [res] else []
     | _ => []) ++ validResolves (stepItem m e) es

/-! ## Search debounce machine

The debounce effect schedules `setSearch(searchInput)` 260 ms after each
keystroke and its cleanup cancels the previously pending timer.  `queries`
records the item queries triggered by commits of the debounced term (the
`loadItems` effect reruns only when the committed value differs from the
current term, state updates to an identical value being no-ops). -/

/-- Debounce quiet period, in milliseconds. -/
def debounceMs : Nat := 260

/-- State of the debounce machine: the active (debounced) term, the pending
timer (fire time and buffered value), and the search terms of the item
queries triggered so far. -/
structure DebounceM where
  search : String
  pending : Option (Nat × String)
  queries : List String
deriving DecidableEq

/-- Fire the pending timer if its deadline has passed by time `now`:
commits the buffered value to the debounced term, triggering an item query
when the value actually changes. -/
def fireIfDue (m : DebounceM) (now : Nat) : DebounceM :=
  match m.pending with
  | none => m
  | some (ft, v) =>
    if ft < now then
      { search := v, pending := none,
        queries := m.queries ++ (if v = m.search then [] else [v]) }
    else m

/-- A keystroke at time `t` changing the raw input to `v`: any timer still
pending at `t` has either fired or is cancelled by the effect cleanup, and a
fresh timer for `v` is scheduled `debounceMs` later. -/
def keystroke (m : DebounceM) (t : Nat) (v : String) : DebounceM :=
  let m1 := fireIfDue m t
  { m1 with pending := some (t + debounceMs, v) }

/-- After the last keystroke the remaining timer eventually fires. -/
def flushPending (m : DebounceM) : DebounceM :=
  match m.pending with
  | none => m
  | some (_, v) =>
    { search := v, pending := none,
      queries := m.queries ++ (if v = m.search then [] else [v]) }

/-- Debounce machine at mount (time 0): the first run of the effect schedules a
timer for the initial empty input. -/
def initDebounce : DebounceM :=
  { search := "", pending := some (debounceMs, ""), queries := [] }

/-- Run the debounce machine over timed keystrokes (strictly increasing
times), then let the last timer fire. -/
def runDebounce (ks : List (Nat × String)) : DebounceM :=
  flushPending (ks.foldl (fun m k => keystroke m k.1 k.2) initDebounce)

/-! ## Sample data for concrete runs -/

/-- An item page standing for the response to the superseded (points-sorted)
query in the race scenario. -/
def pagePoints : ItemListResponse := { total := 1, items := [] }

/-- An item page standing for the response to the newest (title-sorted)
query in the race scenario. -/
def pageTitle : ItemListResponse := { total := 2, items := [] }

/-- Race scenario: the user clicks the points header, then the title header;
the title-sorted fetch settles first, the superseded points-sorted fetch
settles last. -/
def raceEvents : List ItemEv :=
  [.userSort .points, .userSort .title, .resolve 2 (.ok pageTitle),
   .resolve 1 (.ok pagePoints)]

/-- A sample fulfilled status response. -/
def sampleStatus : ScrapeStatus :=
  { is_running := false, last_run_status := some "success",
    last_run_completed_at := none, last_error := none, next_run_at := none }

/-- A sample fulfilled schedule response. -/
def sampleSchedule : Schedule := { interval_minutes := some 30, next_run_at := none }

/-- A sample fulfilled summary response. -/
def sampleSummary : SummaryResponse := { cards := [] }

/-- A sample fulfilled trending response. -/
def sampleTrending : TrendingResponse := { topics := [], points := [] }

/-- A sample fulfilled history response. -/
def sampleHistory : HistoryResponse := { success_rate := some 100, runs := [] }

/-- Six fulfilled bulk-refresh results. -/
def sampleCore : CoreResults :=
  { summaryRes := .ok sampleSummary, trendsRes := .ok sampleTrending,
    domainsRes := .ok [], statusRes := .ok sampleStatus,
    historyRes := .ok sampleHistory, scheduleRes := .ok sampleSchedule }

/-- A state carrying a visible error. -/
def errState : DashState := { initState with error := some "boom" }

/-- A state in which a run trigger is already in flight. -/
def runningState : DashState := { initState with isRunning := true }

/-! ## Helper lemmas -/

/-- A settled result has no rejection message exactly when it is fulfilled. -/
lemma exceptError_eq_none {α : Type} {x : Except String α} :
    exceptError x = none ↔ x.isOk = true := by
  cases x <;> simp [exceptError, Except.isOk, Except.toBool]

/-- When all six bulk-refresh fetches are fulfilled, no slot rejects. -/
lemma slotError_eq_none_of_allOk (res : CoreResults) (h : allOk res = true) (i : Nat) :
    slotError res i = none := by
  simp only [allOk, Bool.and_eq_true] at h
  obtain ⟨⟨⟨⟨⟨h0, h1⟩, h2⟩, h3⟩, h4⟩, h5⟩ := h
  match i with
  | 0 => exact exceptError_eq_none.mpr h0
  | 1 => exact exceptError_eq_none.mpr h1
  | 2 => exact exceptError_eq_none.mpr h2
  | 3 => exact exceptError_eq_none.mpr h3
  | 4 => exact exceptError_eq_none.mpr h4
  | 5 => exact exceptError_eq_none.mpr h5
  | (_ + 6) => rfl

/-- When all six fetches are fulfilled, `Promise.all` observes no rejection
in any settlement order. -/
lemma coreErrors_eq_nil_of_allOk (order : List Nat) (res : CoreResults)
    (h : allOk res = true) : coreErrors order res = [] :=
  List.filterMap_eq_nil_iff.mpr fun a _ => slotError_eq_none_of_allOk res h a

/-- All-fulfilled run of `loadCoreData`: the six pieces of state are
replaced, the interval input is seeded, the error is cleared and
`bootLoading` is cleared. -/
lemma loadCoreData_ok (s : DashState) (order : List Nat) (res : CoreResults)
    (su : SummaryResponse) (tr : TrendingResponse) (dm : List DomainPoint)
    (st : ScrapeStatus) (hi : HistoryResponse) (sc : Schedule)
    (hsu : res.summaryRes = .ok su) (htr : res.trendsRes = .ok tr)
    (hdm : res.domainsRes = .ok dm) (hst : res.statusRes = .ok st)
    (hhi : res.historyRes = .ok hi) (hsc : res.scheduleRes = .ok sc) :
    loadCoreData s order res =
      { s with summary := some su, trending := some tr, domains := dm,
               status := some st, history := some hi, schedule := some sc,
               intervalMinutes := sc.interval_minutes, error := none,
               bootLoading := false } := by
  have hall : allOk res = true := by
    simp [allOk, hsu, htr, hdm, hst, hhi, hsc, Except.isOk, Except.toBool]
  unfold loadCoreData
  rw [coreErrors_eq_nil_of_allOk order res hall, hsu, htr, hdm, hst, hhi, hsc]
  rfl

/-- The six fulfilled values of an all-fulfilled bulk refresh. -/
lemma allOk_destruct (res : CoreResults) (h : allOk res = true) :
    ∃ su tr dm st hi sc,
      res.summaryRes = .ok su ∧ res.trendsRes = .ok tr ∧ res.domainsRes = .ok dm ∧
      res.statusRes = .ok st ∧ res.historyRes = .ok hi ∧ res.scheduleRes = .ok sc := by
  simp only [allOk, Bool.and_eq_true] at h
  obtain ⟨⟨⟨⟨⟨h0, h1⟩, h2⟩, h3⟩, h4⟩, h5⟩ := h
  cases e0 : res.summaryRes with
  | error e => rw [e0] at h0; simp [Except.isOk, Except.toBool] at h0
  | ok su =>
  cases e1 : res.trendsRes with
  | error e => rw [e1] at h1; simp [Except.isOk, Except.toBool] at h1
  | ok tr =>
  cases e2 : res.domainsRes with
  | error e => rw [e2] at h2; simp [Except.isOk, Except.toBool] at h2
  | ok dm =>
  cases e3 : res.statusRes with
  | error e => rw [e3] at h3; simp [Except.isOk, Except.toBool] at h3
  | ok st =>
  cases e4 : res.historyRes with
  | error e => rw [e4] at h4; simp [Except.isOk, Except.toBool] at h4
  | ok hi =>
  cases e5 : res.scheduleRes with
  | error e => rw [e5] at h5; simp [Except.isOk, Except.toBool] at h5
  | ok sc => exact ⟨su, tr, dm, st, hi, sc, rfl, rfl, rfl, rfl, rfl, rfl⟩

/-- An all-fulfilled bulk refresh leaves the error slot empty. -/
lemma loadCoreData_error_of_allOk (s : DashState) (order : List Nat)
    (res : CoreResults) (h : allOk res = true) :
    (loadCoreData s order res).error = none := by
  obtain ⟨su, tr, dm, st, hi, sc, h0, h1, h2, h3, h4, h5⟩ := allOk_destruct res h
  rw [loadCoreData_ok s order res su tr dm st hi sc h0 h1 h2 h3 h4 h5]

/-- The lexicographic comparison is total. -/
lemma charListLe_total : ∀ as bs : List Char, charListLe as bs = true ∨ charListLe bs as = true := by
  intro as
  induction as with
  | nil => intro bs; left; rfl
  | cons a as' ih =>
    intro bs
    cases bs with
    | nil => right; rfl
    | cons b bs' =>
      by_cases hab : a = b
      · subst hab
        rcases ih bs' with h | h
        · left; simpa [charListLe] using h
        · right; simpa [charListLe] using h
      · rcases lt_trichotomy a b with h | h | h
        · left; simp [charListLe, hab, h]
        · exact absurd h hab
        · right
          have hba : ¬ b = a := fun hh => hab hh.symm
          simp [charListLe, hba, h]

/-- The lexicographic comparison is transitive. -/
lemma charListLe_trans : ∀ as bs cs : List Char,
    charListLe as bs = true → charListLe bs cs = true → charListLe as cs = true := by
  intro as
  induction as with
  | nil => intro bs cs _ _; rfl
  | cons a as' ih =>
    intro bs cs h1 h2
    cases bs with
    | nil => simp [charListLe] at h1
    | cons b bs' =>
      cases cs with
      | nil => simp [charListLe] at h2
      | cons c cs' =>
        by_cases hab : a = b <;> by_cases hbc : b = c
        · subst hab; subst hbc
          simp only [charListLe, if_pos rfl] at h1 h2 ⊢
          exact ih bs' cs' h1 h2
        · subst hab
          have hlt : a < c := by
            have := h2
            simp only [charListLe, if_neg hbc, decide_eq_true_eq] at this
            exact this
          have hac : ¬ a = c := ne_of_lt hlt
          simp [charListLe, hac, hlt]
        · subst hbc
          have hlt : a < b := by
            simp only [charListLe, if_neg hab, decide_eq_true_eq] at h1
            exact h1
          have hac : ¬ a = b := ne_of_lt hlt
          simp [charListLe, hac, hlt]
        · have hlt1 : a < b := by
            simp only [charListLe, if_neg hab, decide_eq_true_eq] at h1
            exact h1
          have hlt2 : b < c := by
            simp only [charListLe, if_neg hbc, decide_eq_true_eq] at h2
            exact h2
          have hlt : a < c := lt_trans hlt1 hlt2
          have hac : ¬ a = c := ne_of_lt hlt
          simp [charListLe, hac, hlt]

instance : IsTotal String domLe :=
  ⟨fun a b => charListLe_total a.data b.data⟩

instance : IsTrans String domLe :=
  ⟨fun a b c h1 h2 => charListLe_trans a.data b.data c.data h1 h2⟩

/-- The sort-toggle handler never touches the item page. -/
lemma handleSort_items (s : DashState) (c : SortColumn) :
    (handleSort s c).items = s.items := by
  unfold handleSort
  split <;> rfl

/-- Last-resolved-wins: after any run of the item-query machine, the `items`
slot is the fold of the settled fetches that were actually issued, in
settlement order — the settlement that arrives last determines the page,
with no regard to which query it belongs to. -/
lemma lastResolvedWins : ∀ (evs : List ItemEv) (m : ItemMachine),
    (evs.foldl stepItem m).st.items = (validResolves m evs).foldl applyRes m.st.items := by
  intro evs
  induction evs with
  | nil => intro m; rfl
  | cons e es ih =>
    intro m
    show (es.foldl stepItem (stepItem m e)).st.items = _
    rw [ih (stepItem m e)]
    simp only [validResolves, List.foldl_append]
    congr 1
    cases e with
    | userSort c =>
      show (issueLoad { m with st := handleSort m.st c }).st.items = m.st.items
      simp only [issueLoad, loadItemsStart]
      exact handleSort_items m.st c
    | userFilter v => rfl
    | userSearchCommit q => rfl
    | resolve i res =>
      by_cases h : i < m.issued.length
      · simp only [stepItem, if_pos h]
        cases res <;> rfl
      · simp only [stepItem, if_neg h]
        rfl

/-! ## Claim C1 — last-query-wins for item fetches -/

/-- Claim C1, counterexample: in the race scenario three item fetches are
issued (mount, points sort, title sort); the newest query sorts by title,
yet after its response settles first and the superseded points-sorted
response settles last, `ItemPage` holds the superseded response — the stale
result is applied, not dropped, contradicting last-query-wins. -/
theorem C1_counterexample :
    (runItems raceEvents).issued.length = 3
    ∧ List.lookup "sort_by" ((runItems raceEvents).issued.getD 2 []) = some "title"
    ∧ List.lookup "sort_by" ((runItems raceEvents).issued.getD 1 []) = some "points"
    ∧ (runItems raceEvents).st.items = some pagePoints
    ∧ pagePoints ≠ pageTitle := by
  decide

/-- Claim C1 as amended — last-resolved-wins: the controller applies every
item-fetch response in settlement order with no staleness guard, so after
any sequence of query changes and settlements, `ItemPage` equals the payload
of the most recently settled successful fetch (or the initial `null` page if
none succeeded), even when that fetch belongs to a superseded query. -/
theorem C1_last_resolved_wins : ∀ evs : List ItemEv,
    (runItems evs).st.items = (validResolves initItemMachine evs).foldl applyRes none :=
  fun evs => lastResolvedWins evs initItemMachine

/-! ## Claim C2 — manual run trigger guard -/

/-- Claim C2: whenever a run is already being triggered (`isRunning`) or the
reported status says one is in progress (`RunStatus.is_running`), the run
button is disabled, so a user click invokes nothing: no trigger request is
issued and no state field changes. -/
theorem C2_run_trigger_guard :
    ∀ (s : DashState) (post : Except String Unit) (order : List Nat)
      (core : CoreResults) (itemsRes : Except String ItemListResponse)
      (coreLast : Bool),
      s.isRunning = true ∨ statusIsRunning s = true →
      clickRunScrape s post order core itemsRes coreLast = (s, false) := by
  intro s post order core itemsRes coreLast h
  have hd : runScrapeDisabled s = true := by
    cases h with
    | inl h => simp [runScrapeDisabled, h]
    | inr h => simp [runScrapeDisabled, h]
  simp [clickRunScrape, hd]

/-- Claim C2, witness: clicking while a trigger is in flight changes
nothing. -/
theorem C2_run_trigger_guard_witness :
    clickRunScrape runningState (.ok ()) [0, 1, 2, 3, 4, 5] sampleCore
      (.ok pagePoints) true = (runningState, false) :=
  C2_run_trigger_guard runningState (.ok ()) [0, 1, 2, 3, 4, 5] sampleCore
    (.ok pagePoints) true (Or.inl rfl)

/-! ## Claim C3 — bulk refresh atomicity -/

/-- Claim C3: when all six fetches of a bulk refresh are fulfilled, the six
pieces of state are replaced, the interval input is seeded from the fetched
schedule and the error slot is cleared; when any fetch rejects, none of the
six pieces changes and the error slot holds the first captured rejection
message; the initial-load flag is cleared in both cases; and, over any
complete settlement order, observing no rejection is equivalent to all six
being fulfilled. -/
theorem C3_bulk_refresh_atomic :
    (∀ (s : DashState) (order : List Nat) (res : CoreResults)
        (su : SummaryResponse) (tr : TrendingResponse) (dm : List DomainPoint)
        (st : ScrapeStatus) (hi : HistoryResponse) (sc : Schedule),
        res.summaryRes = .ok su → res.trendsRes = .ok tr → res.domainsRes = .ok dm →
        res.statusRes = .ok st → res.historyRes = .ok hi → res.scheduleRes = .ok sc →
        loadCoreData s order res =
          { s with summary := some su, trending := some tr, domains := dm,
                   status := some st, history := some hi, schedule := some sc,
                   intervalMinutes := sc.interval_minutes, error := none,
                   bootLoading := false })
    ∧ (∀ (s : DashState) (order : List Nat) (res : CoreResults) (e : String),
        (coreErrors order res).head? = some e →
        loadCoreData s order res = { s with error := some e, bootLoading := false })
    ∧ (∀ (order : List Nat) (res : CoreResults),
        (∀ i, i < 6 → i ∈ order) →
        ((coreErrors order res).head? = none ↔ allOk res = true)) := by
  refine ⟨fun s order res su tr dm st hi sc h0 h1 h2 h3 h4 h5 =>
    loadCoreData_ok s order res su tr dm st hi sc h0 h1 h2 h3 h4 h5, ?_, ?_⟩
  · intro s order res e h
    unfold loadCoreData
    rw [h]
  · intro order res hcomp
    rw [List.head?_eq_none_iff]
    constructor
    · intro h
      have hall : ∀ a ∈ order, slotError res a = none :=
        List.filterMap_eq_nil_iff.mp h
      have g : ∀ i, i < 6 → slotError res i = none := fun i hi => hall i (hcomp i hi)
      have g0 := g 0 (by norm_num)
      have g1 := g 1 (by norm_num)
      have g2 := g 2 (by norm_num)
      have g3 := g 3 (by norm_num)
      have g4 := g 4 (by norm_num)
      have g5 := g 5 (by norm_num)
      simp only [slotError] at g0 g1 g2 g3 g4 g5
      simp only [allOk, Bool.and_eq_true]
      exact ⟨⟨⟨⟨⟨exceptError_eq_none.mp g0, exceptError_eq_none.mp g1⟩,
        exceptError_eq_none.mp g2⟩, exceptError_eq_none.mp g3⟩,
        exceptError_eq_none.mp g4⟩, exceptError_eq_none.mp g5⟩
    · intro h
      exact coreErrors_eq_nil_of_allOk order res h

/-- Claim C3, witness: an all-fulfilled bulk refresh over the settlement
order 0–5 replaces the six pieces of state, seeds the interval input and
clears the error and initial-load flags. -/
theorem C3_bulk_refresh_atomic_witness :
    loadCoreData initState [0, 1, 2, 3, 4, 5] sampleCore =
      { initState with summary := some sampleSummary, trending := some sampleTrending,
                       domains := [], status := some sampleStatus,
                       history := some sampleHistory, schedule := some sampleSchedule,
                       intervalMinutes := sampleSchedule.interval_minutes,
                       error := none, bootLoading := false } :=
  C3_bulk_refresh_atomic.1 initState [0, 1, 2, 3, 4, 5] sampleCore
    sampleSummary sampleTrending [] sampleStatus sampleHistory sampleSchedule
    rfl rfl rfl rfl rfl rfl

/-! ## Claim C4 — error clearing by successful operations -/

/-- Claim C4, counterexample: a successful background status poll leaves a
previously recorded error in the slot — the claim that every successful
operation of any kind (the poll included) nulls the error slot is false on
the code, which only replaces `status`. -/
theorem C4_counterexample :
    (pollStep errState (.ok sampleStatus)).error = some "boom"
    ∧ (pollStep errState (.ok sampleStatus)).error ≠ none := by
  decide

/-- Claim C4 as amended: a successful bulk refresh, a successful item query,
a successful run trigger whose follow-up refreshes also succeed, and a
successful schedule update whose follow-up refresh also succeeds, each leave
the error slot null afterwards; the background status poll, however, never
changes the error slot, so a pre-existing error survives a successful
poll. -/
theorem C4_error_clearing :
    (∀ (s : DashState) (order : List Nat) (res : CoreResults),
        allOk res = true → (loadCoreData s order res).error = none)
    ∧ (∀ (s : DashState) (page : ItemListResponse),
        (loadItemsFinish s (.ok page)).error = none)
    ∧ (∀ (s : DashState) (order : List Nat) (core : CoreResults)
        (page : ItemListResponse) (coreLast : Bool),
        allOk core = true →
        (runScrape s (.ok ()) order core (.ok page) coreLast).error = none)
    ∧ (∀ (s : DashState) (upd : Schedule) (order : List Nat) (core : CoreResults),
        allOk core = true → ((updateSchedule s (.ok upd) order core).1).error = none)
    ∧ (∀ (s : DashState) (res : Except String ScrapeStatus),
        (pollStep s res).error = s.error) := by
  refine ⟨loadCoreData_error_of_allOk, fun s page => rfl, ?_, ?_, ?_⟩
  · intro s order core page coreLast h
    cases coreLast with
    | true =>
      show (loadCoreData (loadItemsFinish _ (.ok page)) order core).error = none
      exact loadCoreData_error_of_allOk _ order core h
    | false => rfl
  · intro s upd order core h
    show (loadCoreData _ order core).error = none
    exact loadCoreData_error_of_allOk _ order core h
  · intro s res
    cases res <;> rfl

/-- Claim C4 as amended, witness: an all-fulfilled bulk refresh clears the
error even from a state that carries one. -/
theorem C4_error_clearing_witness :
    (loadCoreData errState [0, 1, 2, 3, 4, 5] sampleCore).error = none :=
  C4_error_clearing.1 errState [0, 1, 2, 3, 4, 5] sampleCore (by decide)

/-! ## Claim C5 — fetcher contract -/

/-- Claim C5: a non-success status rejects with the response body text when
non-empty and with the generic status message otherwise; a 204 no-content
success fulfils with the undefined result; a success with a body fulfils
with the parsed body and rejects when parsing fails; and one call issues
exactly one request — the fetcher never retries. -/
theorem C5_fetcher_contract :
    (∀ (α : Type) (parse : String → Except String α) (r : HttpResponse),
        respOk r = false →
        apiFetch parse r =
          .error (if r.body = "" then "Request failed: " ++ toString r.status else r.body))
    ∧ (∀ (α : Type) (parse : String → Except String α) (body : String),
        apiFetch parse { status := 204, body := body } = .ok none)
    ∧ (∀ (α : Type) (parse : String → Except String α) (r : HttpResponse) (v : α),
        respOk r = true → r.status ≠ 204 → parse r.body = .ok v →
        apiFetch parse r = .ok (some v))
    ∧ (∀ (α : Type) (parse : String → Except String α) (r : HttpResponse) (e : String),
        respOk r = true → r.status ≠ 204 → parse r.body = .error e →
        apiFetch parse r = .error e)
    ∧ (∀ (α : Type) (parse : String → Except String α) (net : List HttpResponse),
        (apiFetchTrace parse net).1 = 1) := by
  refine ⟨?_, ?_, ?_, ?_, ?_⟩
  · intro α parse r h
    simp [apiFetch, h]
  · intro α parse body
    rfl
  · intro α parse r v hok h204 hp
    simp [apiFetch, hok, h204, hp]
  · intro α parse r e hok h204 hp
    simp [apiFetch, hok, h204, hp]
  · intro α parse net
    cases net <;> rfl

/-- Claim C5, witness: a 404 with an empty body rejects with the generic
message. -/
theorem C5_fetcher_contract_witness :
    apiFetch (fun _ => (.error "bad json" : Except String Nat))
        { status := 404, body := "" } =
      .error "Request failed: 404" :=
  C5_fetcher_contract.1 Nat (fun _ => .error "bad json")
    { status := 404, body := "" } (by decide)

/-! ## Claim C6 — item query semantics -/

/-- Claim C6: `loadItems` sets table-pending, builds its query from the
current state — sort column, sort order, limit 40, offset 0, `search` only
when the trimmed debounced term is non-empty (with that trimmed value) and
`source` only when the filter differs from the sentinel all-value — and, on
settlement, replaces `ItemPage` and clears the error on fulfilment, stores
the message and leaves the previous `ItemPage` untouched on rejection, and
clears table-pending in either case. -/
theorem C6_item_query_semantics :
    (∀ s : DashState, (loadItemsStart s).1 = { s with tableLoading := true })
    ∧ (∀ s : DashState,
        List.lookup "sort_by" (loadItemsStart s).2 = some s.sortBy.key
        ∧ List.lookup "sort_order" (loadItemsStart s).2 = some s.sortOrder.key
        ∧ List.lookup "limit" (loadItemsStart s).2 = some "40"
        ∧ List.lookup "offset" (loadItemsStart s).2 = some "0"
        ∧ List.lookup "search" (loadItemsStart s).2 =
            (if jsTrim s.search = "" then none else some (jsTrim s.search))
        ∧ List.lookup "source" (loadItemsStart s).2 =
            (if s.sourceFilter = "all" then none else some s.sourceFilter))
    ∧ (∀ (s : DashState) (page : ItemListResponse),
        loadItemsFinish s (.ok page) =
          { s with items := some page, error := none, tableLoading := false })
    ∧ (∀ (s : DashState) (e : String),
        loadItemsFinish s (.error e) = { s with error := some e, tableLoading := false })
    ∧ (∀ (s : DashState) (e : String), (loadItemsFinish s (.error e)).items = s.items) := by
  refine ⟨fun s => rfl, ?_, fun s page => rfl, fun s e => rfl, fun s e => rfl⟩
  intro s
  by_cases h1 : jsTrim s.search = "" <;> by_cases h2 : s.sourceFilter = "all" <;>
    simp [loadItemsStart, itemsQuery, h1, h2, List.lookup]

/-! ## Claim C7 — polling frame and resilience -/

/-- Claim C7: a fulfilled status poll replaces `RunStatus` and changes no
other state field; a rejected poll changes nothing at all — `RunStatus`
keeps its previous value and the error slot is untouched — and a subsequent
fulfilled poll updates `RunStatus` normally. -/
theorem C7_poll_frame :
    (∀ (s : DashState) (st : ScrapeStatus), pollStep s (.ok st) = { s with status := some st })
    ∧ (∀ (s : DashState) (e : String), pollStep s (.error e) = s)
    ∧ (∀ (s : DashState) (e : String) (st : ScrapeStatus),
        pollStep (pollStep s (.error e)) (.ok st) = { s with status := some st }) :=
  ⟨fun _ _ => rfl, fun _ _ => rfl, fun _ _ _ => rfl⟩

/-! ## Claim C8 — search debounce -/

/-- Claim C8: each keystroke cancels the pending timer and schedules a
commit of the new buffered value 260 ms later; typing three prefixes with
gaps under 260 ms triggers exactly one item query, for the final value,
while a gap over 260 ms between two keystrokes triggers two queries. -/
theorem C8_search_debounce :
    (∀ (m : DebounceM) (t : Nat) (v : String),
        (keystroke m t v).pending = some (t + 260, v))
    ∧ (runDebounce [(300, "a"), (400, "ab"), (500, "abc")]).queries = ["abc"]
    ∧ (runDebounce [(300, "a"), (400, "ab"), (500, "abc")]).search = "abc"
    ∧ (runDebounce [(300, "a"), (400, "ab"), (1000, "abc")]).queries = ["ab", "abc"] :=
  ⟨fun _ _ _ => rfl, by decide, by decide, by decide⟩

/-! ## Claim C9 — domain projection -/

/-- Claim C9: the derived source-filter option list contains a domain
exactly when it occurs among the domain-counts names or among the
`source_domain` fields of the current item page, holds no duplicates, is
sorted in the lexicographic order, and on the spec example computes the
three domains in order. -/
theorem C9_domain_projection :
    (∀ (dps : List DomainPoint) (page : ItemListResponse) (d : String),
        d ∈ uniqueDomains dps (some page) ↔
          ((∃ p ∈ dps, p.domain = d) ∨ (∃ it ∈ page.items, it.source_domain = d)))
    ∧ (∀ (dps : List DomainPoint) (page : ItemListResponse),
        (uniqueDomains dps (some page)).Nodup)
    ∧ (∀ (dps : List DomainPoint) (page : ItemListResponse),
        List.Sorted domLe (uniqueDomains dps (some page)))
    ∧ uniqueDomains [{ domain := "a.com", count := 5 }, { domain := "b.com", count := 2 }]
        (some { total := 1,
                items := [{ id := 1, run_id := 1, title := "t", url := "u", points := 0,
                            comments := 0, source_domain := "c.com", timestamp := "ts" }] }) =
      ["a.com", "b.com", "c.com"] := by
  refine ⟨?_, ?_, ?_, by decide⟩
  · intro dps page d
    unfold uniqueDomains
    rw [(List.perm_insertionSort domLe _).mem_iff, List.mem_dedup, List.mem_append]
    simp [itemDomains, List.mem_map, eq_comm]
  · intro dps page
    exact (List.perm_insertionSort domLe _).symm.nodup (List.nodup_dedup _)
  · intro dps page
    exact List.sorted_insertionSort domLe _

/-! ## Claim C10 — interval-input coercion -/

/-- Claim C10: an empty raw value stores 15, any other raw value stores its
JavaScript numeric coercion — which can be 0 or `NaN` despite the declared
input range — and a schedule update sends the stored value unclamped. -/
theorem C10_interval_coercion :
    (∀ s : DashState, onIntervalChange s "" = { s with intervalMinutes := some 15 })
    ∧ (∀ (s : DashState) (raw : String), raw ≠ "" →
        onIntervalChange s raw = { s with intervalMinutes := jsNumber raw })
    ∧ jsNumber "0" = some 0
    ∧ jsNumber "oops" = none
    ∧ (∀ (s : DashState) (post : Except String Schedule) (order : List Nat)
        (core : CoreResults),
        (updateSchedule s post order core).2 = s.intervalMinutes)
    ∧ (updateSchedule { initState with intervalMinutes := some 0 } (.error "e")
        [0, 1, 2, 3, 4, 5] sampleCore).2 = some 0 := by
  refine ⟨fun s => rfl, ?_, by decide, by decide, ?_, by decide⟩
  · intro s raw h
    simp [onIntervalChange, h]
  · intro s post order core
    cases post <;> rfl

/-- Claim C10, witness: a raw zero — below the declared minimum — is stored
as is. -/
theorem C10_interval_coercion_witness :
    onIntervalChange initState "0" = { initState with intervalMinutes := jsNumber "0" } :=
  C10_interval_coercion.2.1 initState "0" (by decide)

end ScrapePilot
